import Mathlib

/-!
Shallow embedding of `claudia-server/examples/python/client.py` (class
`ClaudiaClient`): a session-controller client that starts sessions over
HTTP, subscribes to a WebSocket stream, and dispatches two-level tagged
JSON envelopes.

Modelling conventions:
* JSON values are the inductive `Json` (numbers as `Int`; no claim touches
  fractional numbers).
* `response.json()` is modelled by the response carrying `Option Json`:
  `none` means the body is not parseable JSON (the call raises).
* Python exceptions are the `PyErr` type; fallible code returns
  `Except PyErr α`.  `PyErr.raised msg` is an explicit
  `raise Exception(msg)`; `keyError`, `typeError`, `attributeError` and
  `jsonDecodeError` are the implicit failures of subscripting, `.get` on a
  non-dict, and JSON decoding.
* A `print` statement of the handlers is modelled as an emitted `Event`
  (console rendering itself is outside the program's scope); the dynamic
  part of the printed f-string is rendered with `pyStr`, the model of
  Python `str()` on decoded JSON values.
* The WebSocket connection is modelled as the finite list of frames it
  delivers before it closes; a frame that is not decodable JSON is `none`.
-/

/-- Decoded JSON values, as produced by `json.loads`. JSON `null` and the
Python `None` returned by `dict.get` coincide in `Json.null`. Objects are
duplicate-free association lists. -/
inductive Json where
  | null : Json
  | bool (b : Bool) : Json
  | num (n : Int) : Json
  | str (s : String) : Json
  | arr (xs : List Json) : Json
  | obj (fields : List (String × Json)) : Json

/-- Python exceptions relevant to the client. -/
inductive PyErr where
  | raised (msg : String) : PyErr
  | keyError (key : String) : PyErr
  | typeError : PyErr
  | attributeError : PyErr
  | jsonDecodeError : PyErr
deriving DecidableEq, Repr

/-- Python `d.get(k)` on the field list of a JSON object: `none` when the
key is absent (Python returns the default). -/
def dictGet (fields : List (String × Json)) (key : String) : Option Json :=
  (fields.find? (fun kv => kv.1 = key)).map (fun kv => kv.2)

/-- Python subscripting `j[k]`: `KeyError` on a dict without the key,
`TypeError` when `j` is not a dict (string index on a list or scalar). -/
def Json.item (j : Json) (key : String) : Except PyErr Json :=
  match j with
  | .obj fields =>
    match dictGet fields key with
    | some v => .ok v
    | none => .error (.keyError key)
  | _ => .error .typeError

/-- Python `x == "lit"` where `lit` is a string literal: true exactly when
`x` is that string (comparisons against `None` or other types are false,
never an error). -/
def Json.isStr (j : Json) (s : String) : Bool :=
  match j with
  | .str t => t = s
  | _ => false

/-- Python truthiness of a decoded JSON value (`if content:`). -/
def pyTruthy : Json → Bool
  | .null => false
  | .bool b => b
  | .num n => n != 0
  | .str s => s != ""
  | .arr xs => !xs.isEmpty
  | .obj fields => !fields.isEmpty

mutual
/-- Python `repr()` on a decoded JSON value, used for values nested inside
containers (string escaping inside `repr` is not modelled; no claim nests
strings needing escapes). -/
def pyRepr : Json → String
  | .null => "None"
  | .bool true => "True"
  | .bool false => "False"
  | .num n => toString n
  | .str s => "\x27" ++ s ++ "\x27"
  | .arr xs => "[" ++ pyReprList xs ++ "]"
  | .obj fields => "\x7b" ++ pyReprFields fields ++ "\x7d"

/-- Comma-separated `repr`s of list elements. -/
def pyReprList : List Json → String
  | [] => ""
  | [x] => pyRepr x
  | x :: y :: xs => pyRepr x ++ ", " ++ pyReprList (y :: xs)

/-- Comma-separated `key: repr(value)` pairs of dict entries. -/
def pyReprFields : List (String × Json) → String
  | [] => ""
  | [(k, v)] => "\x27" ++ k ++ "\x27: " ++ pyRepr v
  | (k, v) :: kw :: xs =>
    "\x27" ++ k ++ "\x27: " ++ pyRepr v ++ ", " ++ pyReprFields (kw :: xs)
end

/-- Python `str()` on a decoded JSON value, as used by f-strings: a string
renders as itself, `None` and booleans by their Python names, containers
via `repr`. -/
def pyStr : Json → String
  | .str s => s
  | .null => "None"
  | .bool true => "True"
  | .bool false => "False"
  | .num n => toString n
  | .arr xs => pyRepr (.arr xs)
  | .obj fields => pyRepr (.obj fields)

/-- An HTTP response as the client observes it: status code and the result
of `response.json()` (`none`: the body raises a JSON decode error). -/
structure HttpResponse where
  status : Nat
  body : Option Json

/-- `response.json()`. -/
def HttpResponse.json (resp : HttpResponse) : Except PyErr Json :=
  match resp.body with
  | some j => .ok j
  | none => .error .jsonDecodeError

/-- `__init__` line 34: `server_url or os.environ.get('CLAUDIA_SERVER_URL',
'http://localhost:3000')`. `server_url = none` models passing no argument
(Python `None`); the Python `or` takes the right operand whenever the left
is falsy, so an empty-string argument also falls through. `env` is the
value of `CLAUDIA_SERVER_URL` when the variable is set. -/
def resolveServerUrl (server_url : Option String) (env : Option String) : String :=
  let envValue := env.getD "http://localhost:3000"
  match server_url with
  | some s => if s ≠ "" then s else envValue
  | none => envValue

/-- Python `s.replace(pat, rep)`: replace every non-overlapping occurrence
of `pat`, scanning left to right. Fuel-indexed for structural termination;
`fuel = s.length` always suffices since every step consumes at least one
character (the `pat = []` case, which Python treats specially, is never
used: the client only replaces `"http"`). -/
def pyReplaceAux : Nat → List Char → List Char → List Char → List Char
  | 0, s, _, _ => s
  | _ + 1, [], _, _ => []
  | fuel + 1, c :: rest, pat, rep =>
    if pat ≠ [] ∧ pat.isPrefixOf (c :: rest) then
      rep ++ pyReplaceAux fuel (List.drop pat.length (c :: rest)) pat rep
    else
      c :: pyReplaceAux fuel rest pat rep

/-- Python `s.replace(pat, rep)` on strings. -/
def pyReplace (s pat rep : String) : String :=
  ⟨pyReplaceAux s.data.length s.data pat.data rep.data⟩

/-- `__init__` line 35: `self.ws_url = self.server_url.replace('http', 'ws')
+ '/ws'`. -/
def wsUrl (server_url : String) : String :=
  pyReplace server_url "http" "ws" ++ "/ws"

/-- The state `__init__` computes: resolved base URL and derived WebSocket
URL. -/
structure ClaudiaClient where
  server_url : String
  ws_url : String
deriving DecidableEq, Repr

/-- `ClaudiaClient.__init__`. -/
def mkClient (server_url : Option String) (env : Option String) : ClaudiaClient :=
  let resolved := resolveServerUrl server_url env
  ⟨resolved, wsUrl resolved⟩

/-- JSON body `start_session` POSTs to `/api/claude/execute`. -/
def startSessionBody (project_path prompt model : String) : Json :=
  .obj [("project_path", .str project_path),
        ("prompt", .str prompt),
        ("model", .str model)]

/-- `ClaudiaClient.start_session`, lines 78-91: on non-200 parse the body
and raise with its `error` field; on 200 return
`result['data']['session_id']`. The request triple does not affect the
response handling. -/
def start_session (project_path prompt model : String)
    (resp : HttpResponse) : Except PyErr Json :=
  let _requestBody := startSessionBody project_path prompt model
  if resp.status ≠ 200 then do
    let error ← resp.json
    let e ← error.item "error"
    throw (.raised ("Failed to start session: " ++ pyStr e))
  else do
    let result ← resp.json
    let d ← result.item "data"
    d.item "session_id"

/-- `ClaudiaClient.get_running_sessions`, lines 184-192. -/
def get_running_sessions (resp : HttpResponse) : Except PyErr Json :=
  if resp.status ≠ 200 then do
    let error ← resp.json
    let e ← error.item "error"
    throw (.raised ("Failed to get running sessions: " ++ pyStr e))
  else do
    let result ← resp.json
    result.item "data"

/-- `ClaudiaClient.cancel_session`, lines 209-217. The `session_id` only
parameterizes the URL, not the response handling. -/
def cancel_session (session_id : String) (resp : HttpResponse) : Except PyErr Json :=
  let _url := "/api/claude/cancel/" ++ session_id
  if resp.status ≠ 200 then do
    let error ← resp.json
    let e ← error.item "error"
    throw (.raised ("Failed to cancel session: " ++ pyStr e))
  else do
    let result ← resp.json
    let d ← result.item "data"
    d.item "cancelled"

/-- `ClaudiaClient.check_health`, lines 231-237: non-200 raises a fixed
message without reading the body; 200 returns the parsed body. -/
def check_health (resp : HttpResponse) : Except PyErr Json :=
  if resp.status ≠ 200 then
    throw (.raised "Server is not healthy")
  else
    resp.json

/-- One normalized session event, modelling one `print` statement of the
dispatcher (the fixed prefix text of each print is the constructor; the
dynamic f-string part is its rendered argument). -/
inductive Event where
  | statusUpdate (s : String) : Event
  | envelopeError (s : String) : Event
  | unknownType (s : String) : Event
  | started : Event
  | content (s : String) : Event
  | completed : Event
  | claudeError (s : String) : Event
  | claudeOutput (s : String) : Event
  | logParseError : Event
  | logHandleError : Event
deriving DecidableEq, Repr

/-- `ClaudiaClient.handle_claude_stream`, lines 158-172: Level-2 (stream
phase) classification of the `data` payload of a `claude_stream` envelope.
`data.get(...)` on a non-dict raises `AttributeError`; on a dict this
handler never raises. An empty or absent `content` on a `partial` phase is
falsy, so nothing is printed. -/
def handle_claude_stream (data : Json) : Except PyErr (List Event) :=
  match data with
  | .obj fields =>
    let stream_type := (dictGet fields "type").getD .null
    if stream_type.isStr "start" then
      .ok [.started]
    else if stream_type.isStr "partial" then
      let content := (dictGet fields "content").getD (.str "")
      if pyTruthy content then .ok [.content (pyStr content)] else .ok []
    else if stream_type.isStr "complete" then
      .ok [.completed]
    else if stream_type.isStr "error" then
      .ok [.claudeError (pyStr ((dictGet fields "content").getD (.str "")))]
    else
      .ok [.claudeOutput (pyStr ((dictGet fields "content").getD data))]
  | _ => .error .attributeError

/-- `ClaudiaClient.handle_message`, lines 134-143: Level-1 (envelope type)
classification. `message.get('type')` raises `AttributeError` on a
non-dict; the `status` and `error` arms subscript `message['data'][...]`,
which can raise `KeyError` or `TypeError`; every other envelope type
prints one unknown-type notice. -/
def handle_message (message : Json) : Except PyErr (List Event) :=
  match message with
  | .obj fields =>
    let message_type := (dictGet fields "type").getD .null
    if message_type.isStr "status" then do
      let d ← Json.item (.obj fields) "data"
      let s ← d.item "status"
      .ok [.statusUpdate (pyStr s)]
    else if message_type.isStr "claude_stream" then do
      let d ← Json.item (.obj fields) "data"
      handle_claude_stream d
    else if message_type.isStr "error" then do
      let d ← Json.item (.obj fields) "data"
      let e ← d.item "error"
      .ok [.envelopeError (pyStr e)]
    else
      .ok [.unknownType (pyStr message_type)]
  | _ => .error .attributeError

/-- One inbound WebSocket frame as the receive loop sees it: `none` models
a text frame that is not decodable JSON (`json.loads` raises
`JSONDecodeError`), `some data` a decoded envelope. -/
def Frame : Type := Option Json

/-- The body of the receive loop of `connect_websocket` (lines 112-119)
for one frame: the `try`/`except` catches a JSON decode failure and any
exception escaping `handle_message`, prints a log line, and falls through
to the next iteration. This function is total: no frame makes the loop
body propagate an error. -/
def processFrame (frame : Frame) : List Event :=
  match frame with
  | none => [.logParseError]
  | some data =>
    match handle_message data with
    | .ok events => events
    | .error _ => [.logHandleError]

/-- The receive loop `async for message in self.websocket` of
`connect_websocket`: processes the frames the connection delivers, one at
a time in arrival order, and terminates exactly when the frame source is
exhausted (the connection closed). -/
def receiveLoop : List Frame → List Event
  | [] => []
  | frame :: rest => processFrame frame ++ receiveLoop rest

/-- The subscribe handshake message `connect_websocket` sends before the
receive loop (lines 105-109). -/
def subscribeMessage (session_id : String) : Json :=
  .obj [("type", .str "subscribe"), ("session_id", .str session_id)]

/-- `ClaudiaClient.connect_websocket` end to end: sends the subscribe
message for `session_id`, then runs the receive loop over the frames the
connection delivers until it closes. -/
def connect_websocket (session_id : String) (frames : List Frame) :
    Json × List Event :=
  (subscribeMessage session_id, receiveLoop frames)

/-- The concatenation, in order, of the payloads of the incremental-content
events in a dispatcher output (claim-side measuring function). -/
def concatContents (events : List Event) : String :=
  String.join (events.filterMap (fun ev =>
    match ev with
    | .content s => some s
    | _ => none))

/-- A `claude_stream` envelope with the given payload. -/
def streamEnvelope (data : Json) : Json :=
  .obj [("type", .str "claude_stream"), ("data", data)]

/-- True exactly on results that are an explicit `raise Exception(msg)`
(as opposed to an escaping `KeyError`, `TypeError`, or decode error). -/
def Except.isRaisedError : Except PyErr Json → Bool
  | .error (.raised _) => true
  | _ => false

/-- Reduction of monadic bind on a successful `Except` step (helper). -/
theorem exceptBindOk {α β ε : Type} (a : α) (f : α → Except ε β) :
    (Except.ok a >>= f) = f a := rfl

/-- Reduction of monadic bind on a failing `Except` step (helper). -/
theorem exceptBindErr {α β ε : Type} (e : ε) (f : α → Except ε β) :
    ((Except.error e : Except ε α) >>= f) = Except.error e := rfl

/-- `throw` on `Except` is `Except.error` (helper). -/
theorem exceptThrowEq {α ε : Type} (e : ε) :
    (throw e : Except ε α) = Except.error e := rfl

/-- C1: for the envelope sequence start, partial "ab", partial "cd",
complete — each dispatched in order by `handle_message` /
`handle_claude_stream` — the dispatcher emits exactly a started event, an
incremental-content event carrying "ab", an incremental-content event
carrying "cd", and a complete event, in that order, and the concatenation
of the incremental contents is exactly "abcd" with no added separators. -/
theorem c1_stream_sequence_dispatch :
    receiveLoop
      [some (streamEnvelope (.obj [("type", .str "start")])),
       some (streamEnvelope (.obj [("type", .str "partial"), ("content", .str "ab")])),
       some (streamEnvelope (.obj [("type", .str "partial"), ("content", .str "cd")])),
       some (streamEnvelope (.obj [("type", .str "complete")]))] =
      [.started, .content "ab", .content "cd", .completed] ∧
    concatContents
      (receiveLoop
        [some (streamEnvelope (.obj [("type", .str "start")])),
         some (streamEnvelope (.obj [("type", .str "partial"), ("content", .str "ab")])),
         some (streamEnvelope (.obj [("type", .str "partial"), ("content", .str "cd")])),
         some (streamEnvelope (.obj [("type", .str "complete")]))]) = "abcd" :=
  ⟨rfl, rfl⟩

/-- C2: for every non-200 response whose JSON body has an `error` field
with string value E, `start_session`, `get_running_sessions` and
`cancel_session` each raise an exception whose message contains E verbatim
(the message is some prefix, then E, then some suffix), while
`check_health` raises the fixed message "Server is not healthy" whatever
the body holds (even an unparseable one). -/
theorem c2_error_passthrough_health_asymmetry
    (project_path prompt model session_id : String) (st : Nat)
    (fields : List (String × Json)) (E : String) (body : Option Json)
    (hst : st ≠ 200) (herr : dictGet fields "error" = some (.str E)) :
    (∃ pre post, start_session project_path prompt model ⟨st, some (.obj fields)⟩
        = .error (.raised (pre ++ E ++ post))) ∧
    (∃ pre post, get_running_sessions ⟨st, some (.obj fields)⟩
        = .error (.raised (pre ++ E ++ post))) ∧
    (∃ pre post, cancel_session session_id ⟨st, some (.obj fields)⟩
        = .error (.raised (pre ++ E ++ post))) ∧
    check_health ⟨st, body⟩ = .error (.raised "Server is not healthy") := by
  refine ⟨⟨"Failed to start session: ", "", ?_⟩,
          ⟨"Failed to get running sessions: ", "", ?_⟩,
          ⟨"Failed to cancel session: ", "", ?_⟩, ?_⟩ <;>
    simp [start_session, get_running_sessions, cancel_session, check_health,
          HttpResponse.json, Json.item, herr, hst, pyStr,
          exceptBindOk, exceptBindErr, exceptThrowEq]

/-- Witness for C2 at status 500, body `{"error": "boom"}`. -/
theorem c2_error_passthrough_health_asymmetry_witness :
    (∃ pre post, start_session "p" "q" "m" ⟨500, some (.obj [("error", .str "boom")])⟩
        = .error (.raised (pre ++ "boom" ++ post))) ∧
    (∃ pre post, get_running_sessions ⟨500, some (.obj [("error", .str "boom")])⟩
        = .error (.raised (pre ++ "boom" ++ post))) ∧
    (∃ pre post, cancel_session "sid" ⟨500, some (.obj [("error", .str "boom")])⟩
        = .error (.raised (pre ++ "boom" ++ post))) ∧
    check_health ⟨500, none⟩ = .error (.raised "Server is not healthy") :=
  c2_error_passthrough_health_asymmetry "p" "q" "m" "sid" 500
    [("error", .str "boom")] "boom" none (by decide) rfl

/-- C3 counterexample: at the concrete non-200 response with body `{}` the
failure of `start_session` is a `KeyError` on "error" escaping, not a
`RemoteRequestError`-style raised exception with a generic message; with
an unparseable body the JSON decode error escapes. The claim that a
generic-message exception is raised is therefore false on the code. -/
theorem c3_missing_error_field_counterexample :
    start_session "p" "q" "m" ⟨500, some (.obj [])⟩ = .error (.keyError "error") ∧
    (start_session "p" "q" "m" ⟨500, some (.obj [])⟩).isRaisedError = false ∧
    (start_session "p" "q" "m" ⟨500, none⟩).isRaisedError = false :=
  ⟨rfl, rfl, rfl⟩

/-- C3 amended: for every non-200 response to `start_session` whose parsed
body is an object without an `error` field, the call fails with a
`KeyError` on "error" escaping; with an unparseable body the JSON decode
error escapes. No generic-message exception is produced. -/
theorem c3_missing_error_field_amended
    (project_path prompt model : String) (st : Nat)
    (fields : List (String × Json)) (hst : st ≠ 200)
    (hnone : dictGet fields "error" = none) :
    start_session project_path prompt model ⟨st, some (.obj fields)⟩
      = .error (.keyError "error") ∧
    start_session project_path prompt model ⟨st, none⟩
      = .error .jsonDecodeError := by
  constructor <;>
    simp [start_session, HttpResponse.json, Json.item, hnone, hst,
          exceptBindOk, exceptBindErr, exceptThrowEq]

/-- Witness for the amended C3 at status 404 and body `{}`. -/
theorem c3_missing_error_field_amended_witness :
    start_session "p" "q" "m" ⟨404, some (.obj [])⟩ = .error (.keyError "error") ∧
    start_session "p" "q" "m" ⟨404, none⟩ = .error .jsonDecodeError :=
  c3_missing_error_field_amended "p" "q" "m" 404 [] (by decide) rfl

/-- C4: for every triple (project_path, prompt, model) and every 200
response whose JSON body has `data.session_id = S`, `start_session`
returns exactly the string S. -/
theorem c4_start_session_returns_session_id
    (project_path prompt model S : String)
    (fields dfields : List (String × Json))
    (hd : dictGet fields "data" = some (.obj dfields))
    (hs : dictGet dfields "session_id" = some (.str S)) :
    start_session project_path prompt model ⟨200, some (.obj fields)⟩
      = .ok (.str S) := by
  simp [start_session, HttpResponse.json, Json.item, hd, hs,
        exceptBindOk, exceptBindErr, exceptThrowEq]

/-- Witness for C4 at `data.session_id = "S-42"`. -/
theorem c4_start_session_returns_session_id_witness :
    start_session "p" "q" "m"
      ⟨200, some (.obj [("data", .obj [("session_id", .str "S-42")])])⟩
      = .ok (.str "S-42") :=
  c4_start_session_returns_session_id "p" "q" "m" "S-42"
    [("data", .obj [("session_id", .str "S-42")])]
    [("session_id", .str "S-42")] rfl rfl

/-- C5 counterexample: constructing the client with the explicit argument
"" (the empty string — a supplied argument) does not use that argument:
Python `or` treats it as falsy and falls through to the environment
value. The claimed precedence "explicit constructor argument if supplied"
is therefore false at this input. -/
theorem c5_empty_argument_counterexample :
    (mkClient (some "") (some "http://envhost:4000")).server_url
      = "http://envhost:4000" ∧
    (mkClient (some "") (some "http://envhost:4000")).server_url ≠ "" :=
  ⟨rfl, by decide⟩

/-- C5 amended: the base URL is resolved by truthiness precedence — the
explicit constructor argument if supplied and non-empty, else (including
when the argument is the empty string) the CLAUDIA_SERVER_URL environment
value if the variable is set, else the literal default
"http://localhost:3000". -/
theorem c5_amended_truthiness_precedence (s e : String) (env : Option String)
    (hs : s ≠ "") :
    (mkClient (some s) env).server_url = s ∧
    (mkClient none (some e)).server_url = e ∧
    (mkClient (some "") (some e)).server_url = e ∧
    (mkClient none none).server_url = "http://localhost:3000" ∧
    (mkClient (some "") none).server_url = "http://localhost:3000" := by
  refine ⟨?_, rfl, rfl, rfl, rfl⟩
  simp [mkClient, resolveServerUrl, hs]

/-- Witness for the amended C5 at a non-empty argument. -/
theorem c5_amended_truthiness_precedence_witness :
    (mkClient (some "http://arg:1") none).server_url = "http://arg:1" ∧
    (mkClient none (some "http://env:2")).server_url = "http://env:2" ∧
    (mkClient (some "") (some "http://env:2")).server_url = "http://env:2" ∧
    (mkClient none none).server_url = "http://localhost:3000" ∧
    (mkClient (some "") none).server_url = "http://localhost:3000" :=
  c5_amended_truthiness_precedence "http://arg:1" "http://env:2" none (by decide)

/-- C6: the code derives the WebSocket URL with
`server_url.replace('http', 'ws')`, which replaces every occurrence of the
substring "http", not only the scheme. At the base URL
"http://httphost:3000" the host is mangled ("httphost" becomes "wshost"),
contradicting the claim that only the scheme is rewritten; the https→wss
rewriting of the scheme itself does come out as claimed. -/
theorem c6_ws_url_host_mangled :
    (mkClient (some "http://httphost:3000") none).ws_url = "ws://wshost:3000/ws" ∧
    (mkClient (some "http://httphost:3000") none).ws_url ≠ "ws://httphost:3000/ws" ∧
    (mkClient (some "https://example.com:8080") none).ws_url
      = "wss://example.com:8080/ws" :=
  ⟨rfl, by decide, rfl⟩

/-- C7: the receive loop recovers locally from both failure modes of one
frame: an undecodable frame (`none`) is logged and discarded, and an
exception raised while handling one decoded envelope is caught and
logged; in both cases the loop goes on to process the remaining frames
(the error does not cross the loop boundary and the connection stays
open — the rest of the frame source is still consumed). -/
theorem c7_receive_loop_recovers (data : Json) (e : PyErr) (rest : List Frame)
    (hfail : handle_message data = .error e) :
    receiveLoop (none :: rest) = Event.logParseError :: receiveLoop rest ∧
    receiveLoop (some data :: rest) = Event.logHandleError :: receiveLoop rest := by
  constructor
  · rfl
  · simp [receiveLoop, processFrame, hfail]

/-- Witness for C7: a non-dict envelope makes `handle_message` raise
`AttributeError`; the loop logs and continues with a further frame. -/
theorem c7_receive_loop_recovers_witness :
    receiveLoop (none :: [some (streamEnvelope (.obj [("type", .str "start")]))])
      = Event.logParseError
        :: receiveLoop [some (streamEnvelope (.obj [("type", .str "start")]))] ∧
    receiveLoop (some (.str "frame")
        :: [some (streamEnvelope (.obj [("type", .str "start")]))])
      = Event.logHandleError
        :: receiveLoop [some (streamEnvelope (.obj [("type", .str "start")]))] :=
  c7_receive_loop_recovers (.str "frame") .attributeError
    [some (streamEnvelope (.obj [("type", .str "start")]))] rfl

/-- C8: an envelope whose `type` is none of status, claude_stream or error
makes `handle_message` produce exactly one unrecognized-envelope
diagnostic event without raising, and the receive loop then continues:
any subsequent envelope is still dispatched normally. -/
theorem c8_unknown_envelope_diagnostic (fields : List (String × Json))
    (rest : List Frame) (t : Json)
    (ht : (dictGet fields "type").getD .null = t)
    (h1 : t.isStr "status" = false)
    (h2 : t.isStr "claude_stream" = false)
    (h3 : t.isStr "error" = false) :
    handle_message (.obj fields) = .ok [.unknownType (pyStr t)] ∧
    receiveLoop (some (.obj fields) :: rest)
      = .unknownType (pyStr t) :: receiveLoop rest := by
  have hm : handle_message (.obj fields) = .ok [.unknownType (pyStr t)] := by
    simp [handle_message, ht, h1, h2, h3]
  exact ⟨hm, by simp [receiveLoop, processFrame, hm]⟩

/-- Witness for C8: the envelope `{type: "bogus"}` followed by a
well-formed `claude_stream` start envelope. -/
theorem c8_unknown_envelope_diagnostic_witness :
    handle_message (.obj [("type", .str "bogus")])
      = .ok [.unknownType "bogus"] ∧
    receiveLoop (some (.obj [("type", .str "bogus")])
        :: [some (streamEnvelope (.obj [("type", .str "start")]))])
      = .unknownType "bogus"
        :: receiveLoop [some (streamEnvelope (.obj [("type", .str "start")]))] :=
  c8_unknown_envelope_diagnostic [("type", .str "bogus")]
    [some (streamEnvelope (.obj [("type", .str "start")]))]
    (.str "bogus") rfl rfl rfl rfl

/-- C9 counterexample: after a terminal `complete` stream phase is
dispatched the receive loop keeps consuming frames — a following
`partial` frame is still dispatched (its content event appears after the
complete event). The claim that the loop terminates once a terminal
stream phase has been delivered is therefore false on the code, whose
loop exits only when the connection closes. -/
theorem c9_loop_ignores_terminal_phase_counterexample :
    receiveLoop
      [some (streamEnvelope (.obj [("type", .str "complete")])),
       some (streamEnvelope (.obj [("type", .str "partial"), ("content", .str "x")]))]
      = [.completed, .content "x"] ∧
    receiveLoop
      [some (streamEnvelope (.obj [("type", .str "complete")])),
       some (streamEnvelope (.obj [("type", .str "partial"), ("content", .str "x")]))]
      ≠ [.completed] :=
  ⟨rfl, by decide⟩

/-- C9 amended: the receive loop terminates exactly when the underlying
connection closes (its frame source is exhausted); dispatching a terminal
stream phase (complete or error) does not stop it — every frame delivered
after a terminal phase is still consumed and dispatched, as the loop
processes any division of the connection's frames into a prefix and a
suffix completely and in order. -/
theorem c9_amended_loop_runs_until_close (fs gs : List Frame) :
    receiveLoop (fs ++ gs) = receiveLoop fs ++ receiveLoop gs := by
  induction fs with
  | nil => rfl
  | cons f fs ih => simp [receiveLoop, ih]

/-- C10: a `partial` stream phase whose `content` is absent or the empty
string is falsy in Python, so `handle_claude_stream` prints nothing at
all for it (no empty incremental event is rendered), and raises
nothing. -/
theorem c10_empty_partial_suppressed (fields : List (String × Json))
    (ht : dictGet fields "type" = some (.str "partial"))
    (hc : dictGet fields "content" = none ∨
          dictGet fields "content" = some (.str "")) :
    handle_claude_stream (.obj fields) = .ok [] := by
  rcases hc with hc | hc <;>
    simp [handle_claude_stream, ht, hc, Json.isStr, pyTruthy]

/-- Witness for C10: one `partial` payload with empty content and one with
the content key absent. -/
theorem c10_empty_partial_suppressed_witness :
    handle_claude_stream (.obj [("type", .str "partial"), ("content", .str "")])
      = .ok [] ∧
    handle_claude_stream (.obj [("type", .str "partial")]) = .ok [] :=
  ⟨c10_empty_partial_suppressed [("type", .str "partial"), ("content", .str "")]
      rfl (Or.inr rfl),
   c10_empty_partial_suppressed [("type", .str "partial")] rfl (Or.inl rfl)⟩
